import Mathlib

/-!
Shallow embedding of the FMLtools repository (three Python tools:
`count_fml_hits.py`, `region_counts.py`, `get_sequence_positions.py`)
together with proofs about its matching, counting and output policies.

The tools delegate feature representation and the streaming join engine to
the external `genomerator` library, which is not part of this repository's
sources; wherever a definition depends on that library its doc comment
starts with `Modelled from the spec:` and follows the specification's data
model (positioned feature with inclusive left bound and exclusive right
bound, strand-aware 5' start, 3'-directed signed offsets).
-/

namespace FMLtools

/-- Modelled from the spec: a Positioned Feature
`\x7breference_id, left (inclusive), right (exclusive), strand\x7d`;
the payload is carried separately by each policy. -/
structure GenomeFeature where
  reference_id : Nat
  left : Int
  right : Int
  is_reverse : Bool

/-- Modelled from the spec: the strand-aware start (5' end) of a feature,
the first base of a read. With an exclusive right bound, the 5' base of a
reverse feature is `right - 1`; for a forward feature it is `left`. -/
def GenomeFeature.start (f : GenomeFeature) : Int :=
  if f.is_reverse then f.right - 1 else f.left

/-- Modelled from the spec: the signed 3'-directed offset of `other`'s
start from `self`'s 5' end (`motif.start_offset(alignment)` in
`count_fml_hits.py`): positive in `self`'s 3' direction, so measured as
increasing coordinate for a forward `self` and decreasing coordinate for a
reverse `self`. -/
def GenomeFeature.start_offset (self other : GenomeFeature) : Int :=
  if self.is_reverse then self.start - other.start else other.start - self.start

/-- Configuration of `count_fml_hits.py`: the `-s`, `-o` and `-w` options. -/
structure DigestConfig where
  same_strand_offset : Int
  opposite_strand_offset : Int
  wobble : Int

/-- Default configuration of `count_fml_hits.py`:
`DEFAULT_SAME_STRAND_OFFSET = 13`, `DEFAULT_OPPOSITE_STRAND_OFFSET = 16`,
`DEFAULT_WOBBLE = 1`. -/
def defaultDigestConfig : DigestConfig := ⟨13, 16, 1⟩

/-- The `match` lambda of `count_methyl_hits` (src/count_fml_hits.py
lines 86-95): a motif/alignment pair matches when they are on the same
strand and the start offset equals `same_strand_offset`, or they are on
opposite strands and the start offset lies in
`[opposite_strand_offset, opposite_strand_offset + wobble]`. -/
def digest_match (cfg : DigestConfig) (motif alignment : GenomeFeature) : Bool :=
  (motif.is_reverse == alignment.is_reverse
    && motif.start_offset alignment == cfg.same_strand_offset)
  || (motif.is_reverse != alignment.is_reverse
    && decide (cfg.opposite_strand_offset ≤ motif.start_offset alignment)
    && decide (motif.start_offset alignment
        ≤ cfg.opposite_strand_offset + cfg.wobble))

/-- The `a_is_passed` lambda of `count_methyl_hits` (src/count_fml_hits.py
lines 96-97): a motif is passed once the alignment cursor's position
(its left bound, the stream ordering key) exceeds
`motif.right + max(same_strand_offset, opposite_strand_offset)`. -/
def digest_a_is_passed (cfg : DigestConfig) (motif alignment : GenomeFeature) : Bool :=
  decide (alignment.left
    > motif.right + max cfg.same_strand_offset cfg.opposite_strand_offset)

/-- The `b_is_passed` lambda of `count_methyl_hits` (src/count_fml_hits.py
lines 98-99): an alignment is passed once the motif cursor's position
exceeds `alignment.right + max(same_strand_offset, opposite_strand_offset)`. -/
def digest_b_is_passed (cfg : DigestConfig) (motif alignment : GenomeFeature) : Bool :=
  decide (motif.left
    > alignment.right + max cfg.same_strand_offset cfg.opposite_strand_offset)

/-- Modelled from the spec: the digestion-site aggregate of the join engine
(`OperationGenerator` with default increment operation) — a motif's final
count is the number of qualifying alignments, one increment per alignment
satisfying the match predicate. -/
def digestCount (cfg : DigestConfig) (motif : GenomeFeature)
    (alignments : List GenomeFeature) : Nat :=
  alignments.countP (fun a => digest_match cfg motif a)

/-- An alignment record as seen by `count_methyl_hits` before filtering:
its positional feature plus the pysam `is_duplicate`, `is_secondary` and
`is_supplementary` flags. -/
structure SamAlignment where
  feat : GenomeFeature
  is_duplicate : Bool
  is_secondary : Bool
  is_supplementary : Bool

/-- The filter lambda of `alignment_stream` (src/count_fml_hits.py
lines 68-73): keep an alignment only when none of the duplicate,
secondary and supplementary flags is set. -/
def keepAlignment (a : SamAlignment) : Bool :=
  !a.is_duplicate && !a.is_secondary && !a.is_supplementary

/-- The `filter(...)` feeding `gen.SamStream` in `count_methyl_hits`
(src/count_fml_hits.py lines 67-76): the sequence of records forwarded to
the join engine. -/
def alignmentStream (records : List SamAlignment) : List SamAlignment :=
  records.filter keepAlignment

/-- Modelled from the spec: `position.shifted_forward(n)` of genomerator —
shift a position `n` bases in its own 3' direction: increasing coordinate
on the forward strand, decreasing on the reverse strand. -/
def shifted_forward (pos : Int) (is_reverse : Bool) (n : Int) : Int :=
  if is_reverse then pos - n else pos + n

/-- Value of a decimal digit character, `none` for any other character. -/
def digitVal (c : Char) : Option Nat :=
  if '0' ≤ c ∧ c ≤ '9' then some (c.toNat - 48) else none

/-- Accumulate decimal digits left to right, failing on a non-digit. -/
def parseNatAux : List Char → Nat → Option Nat
  | [], acc => some acc
  | c :: rest, acc =>
    match digitVal c with
    | some d => parseNatAux rest (acc * 10 + d)
    | none => none

/-- Model of the Python builtin `int()` on a string: an optional minus sign
followed by at least one decimal digit (surrounding whitespace and a
leading plus sign are not modelled); `none` models the `ValueError` of a
non-numeric string. -/
def str_to_int (s : String) : Option Int :=
  match s.toList with
  | [] => none
  | '-' :: rest =>
    match rest with
    | [] => none
    | _ => (parseNatAux rest 0).map (fun n => -(n : Int))
  | cs => (parseNatAux cs 0).map (fun n => (n : Int))

/-- A hit record of `region_counts.py`: its positional feature plus the raw
tab-separated fields of the BED record (`feature.data` of an unparsed
`BedStream` record), index 3 holding the optional score column. -/
structure BedHit where
  feat : GenomeFeature
  data : List String

/-- The `this_count` computation of `increment_count`
(src/region_counts.py lines 11-14): parse `feature.data[3]` as an integer,
falling back to 1 when it is not numeric; modelled from the spec for a
record with no score field at all ("a missing or non-numeric score is
treated as weight 1"). -/
def hitWeight (b : BedHit) : Int :=
  match b.data[3]? with
  | none => 1
  | some s => (str_to_int s).getD 1

/-- The count update of `increment_count` (src/region_counts.py line 15):
add the hit's weight to the region's running count. -/
def increment_count (count : Int) (b : BedHit) : Int :=
  count + hitWeight b

/-- The `match` lambda of `region_counts` (src/region_counts.py line 43):
`b.start.shifted_forward(position) in a` — the hit's start, shifted
forward by the position offset in the hit's own orientation, falls within
the region's half-open interval (containment modelled from the spec). -/
def region_match (position : Int) (a : GenomeFeature) (b : BedHit) : Bool :=
  let p := shifted_forward b.feat.start b.feat.is_reverse position
  decide (a.left ≤ p) && decide (p < a.right)

/-- Modelled from the spec: the region-counting aggregate of the join
engine — the region's count starts at 0 (`zero_data`) and `increment_count`
runs once per hit satisfying the match predicate. -/
def regionCount (position : Int) (a : GenomeFeature) (hits : List BedHit) : Int :=
  hits.foldl (fun c b => if region_match position a b then increment_count c b else c) 0

/-- The output check of `count_methyl_hits` (src/count_fml_hits.py
line 107): `zeroes or motif_count.data > 0`. -/
def motif_output_check (zeroes : Bool) (count : Nat) : Bool :=
  zeroes || decide (0 < count)

/-- The output check of `region_counts` (src/region_counts.py line 51):
`zeroes or region.data['count'] > 0`. -/
def region_output_check (zeroes : Bool) (count : Int) : Bool :=
  zeroes || decide (0 < count)

/-- The motifs `count_methyl_hits` writes a BED line for: the resolved
motif/count pairs passing the output check (src/count_fml_hits.py
lines 106-107). -/
def outputMotifs (zeroes : Bool) (resolved : List (GenomeFeature × Nat)) :
    List (GenomeFeature × Nat) :=
  resolved.filter (fun p => motif_output_check zeroes p.2)

/-- The per-line adjustment of the output loop of `count_methyl_hits`
(src/count_fml_hits.py lines 111-124): parse `fields[1]` as the current
start; on the reverse strand set `fields[1]` to `start + 2`, on the
forward strand set `fields[2]` to `start + 2`; `none` models the abort of
a failed `int()` parse. -/
def bedAdjust (is_reverse : Bool) (fields : List String) : Option (List String) :=
  match (fields[1]?).bind str_to_int with
  | none => none
  | some current_start =>
    some (if is_reverse
      then fields.set 1 (toString (current_start + 2))
      else fields.set 2 (toString (current_start + 2)))

/-- The `REVCOMP` base-complement table of `get_sequence_positions.py`
(lines 11-16); `none` models the `KeyError` of a base outside the table. -/
def REVCOMP (c : Char) : Option Char :=
  if c = 'A' then some 'T'
  else if c = 'C' then some 'G'
  else if c = 'G' then some 'C'
  else if c = 'T' then some 'A'
  else none

/-- Complement every base of a sequence via `REVCOMP`, failing when any
base is outside the table (the generator inside `revcomp`). -/
def revcompAux : List Char → Option (List Char)
  | [] => some []
  | c :: rest =>
    match REVCOMP c, revcompAux rest with
    | some d, some ds => some (d :: ds)
    | _, _ => none

/-- The `revcomp` function of `get_sequence_positions.py` (lines 39-40):
complement of the reversed sequence. -/
def revcomp (s : List Char) : Option (List Char) :=
  revcompAux s.reverse

/-- A region record of `region_counts.py`: its positional feature plus the
optional `name` payload field (`region.data['name']`, absent when the BED
record has no name column). -/
structure Region where
  feat : GenomeFeature
  name : Option String

/-- The region-name resolution of the output loop of `region_counts`
(src/region_counts.py lines 52-55): use the record's name, or on
`KeyError` synthesize `'%s:%i-%i%s'` from the reference name, the left and
right positions and the strand sign. -/
def regionName (reference_names : List String) (r : Region) : String :=
  match r.name with
  | some n => n
  | none =>
    (reference_names.getD r.feat.reference_id "") ++ ":"
      ++ toString r.feat.left ++ "-" ++ toString r.feat.right
      ++ (if r.feat.is_reverse then "-" else "+")

/-- The two tab-separated output columns of `region_counts`
(src/region_counts.py line 56, format `'%s\t%i\n'`): region name and
count. -/
def outputColumns (reference_names : List String) (r : Region) (count : Int) :
    List String :=
  [regionName reference_names r, toString count]

/-- The output line of `region_counts` (src/region_counts.py line 56):
the two columns joined by a tab, ending in a newline. -/
def outputLine (reference_names : List String) (r : Region) (count : Int) : String :=
  regionName reference_names r ++ "\t" ++ toString count ++ "\n"

/-- Total base complement, agreeing with `REVCOMP` on the four standard
bases (defaulting elsewhere); used to describe `revcomp` on valid input. -/
def compBase (c : Char) : Char :=
  (REVCOMP c).getD 'A'

/-- A character is one of the four standard uppercase bases. -/
def isStdBase (c : Char) : Prop :=
  c = 'A' ∨ c = 'C' ∨ c = 'G' ∨ c = 'T'

instance (c : Char) : Decidable (isStdBase c) := by
  unfold isStdBase; infer_instance

/-- C1: in the digestion-site hit-counting policy, a same-strand
motif/alignment pair matches (and so is counted) exactly when the signed
3'-directed offset of the alignment's start from the motif's 5' end equals
the configured same-strand offset; under the default (13), the motif
`(chr1, 100, 106, +)` with a same-strand alignment starting at 113 gets
count 1, and a same-strand alignment starting at 130 is not matched. -/
theorem claim_C1_same_strand_offset :
    (∀ (cfg : DigestConfig) (motif alignment : GenomeFeature),
      motif.is_reverse = alignment.is_reverse →
      (digest_match cfg motif alignment = true ↔
        motif.start_offset alignment = cfg.same_strand_offset))
    ∧ digestCount defaultDigestConfig ⟨0, 100, 106, false⟩ [⟨0, 113, 150, false⟩] = 1
    ∧ digest_match defaultDigestConfig ⟨0, 100, 106, false⟩ ⟨0, 130, 167, false⟩ = false := by
  refine ⟨?_, by decide, by decide⟩
  intro cfg motif alignment h
  simp [digest_match, h]

/-- Witness for C1 at the spec's concrete input: the default-offset match
of motif `(chr1, 100, 106, +)` with the same-strand alignment at 113. -/
theorem claim_C1_same_strand_offset_witness :
    digest_match defaultDigestConfig ⟨0, 100, 106, false⟩ ⟨0, 113, 150, false⟩ = true :=
  (claim_C1_same_strand_offset.1 defaultDigestConfig ⟨0, 100, 106, false⟩
    ⟨0, 113, 150, false⟩ rfl).mpr (by decide)

/-- C2: in the digestion-site hit-counting policy, an opposite-strand
motif/alignment pair matches exactly when the signed 3'-directed offset
lies in the closed interval from the opposite-strand offset to the
opposite-strand offset plus the wobble; under the defaults (16 and 1), the
motif `(chr1, 100, 106, +)` gets count 1 from an opposite-strand alignment
with offset 16 or 17, while one with offset 18 is not matched. -/
theorem claim_C2_opposite_strand_window :
    (∀ (cfg : DigestConfig) (motif alignment : GenomeFeature),
      motif.is_reverse ≠ alignment.is_reverse →
      (digest_match cfg motif alignment = true ↔
        (cfg.opposite_strand_offset ≤ motif.start_offset alignment ∧
          motif.start_offset alignment ≤ cfg.opposite_strand_offset + cfg.wobble)))
    ∧ digestCount defaultDigestConfig ⟨0, 100, 106, false⟩ [⟨0, 80, 117, true⟩] = 1
    ∧ digestCount defaultDigestConfig ⟨0, 100, 106, false⟩ [⟨0, 80, 118, true⟩] = 1
    ∧ GenomeFeature.start_offset ⟨0, 100, 106, false⟩ ⟨0, 80, 117, true⟩ = 16
    ∧ GenomeFeature.start_offset ⟨0, 100, 106, false⟩ ⟨0, 80, 118, true⟩ = 17
    ∧ GenomeFeature.start_offset ⟨0, 100, 106, false⟩ ⟨0, 80, 119, true⟩ = 18
    ∧ digest_match defaultDigestConfig ⟨0, 100, 106, false⟩ ⟨0, 80, 119, true⟩ = false := by
  refine ⟨?_, by decide, by decide, by decide, by decide, by decide, by decide⟩
  intro cfg motif alignment h
  cases hm : motif.is_reverse <;> cases ha : alignment.is_reverse <;>
    simp_all [digest_match]

/-- Witness for C2 at the spec's concrete input: the default-window match
of motif `(chr1, 100, 106, +)` with the opposite-strand alignment of
offset 16. -/
theorem claim_C2_opposite_strand_window_witness :
    digest_match defaultDigestConfig ⟨0, 100, 106, false⟩ ⟨0, 80, 117, true⟩ = true :=
  (claim_C2_opposite_strand_window.1 defaultDigestConfig ⟨0, 100, 106, false⟩
    ⟨0, 80, 117, true⟩ (by decide)).mpr (by decide)

/-- C7: an alignment record is forwarded to the join engine exactly when it
is primary, i.e. none of its duplicate, secondary or supplementary flags
is set. -/
theorem claim_C7_primary_filter :
    ∀ (records : List SamAlignment) (a : SamAlignment),
      a ∈ alignmentStream records ↔
        a ∈ records ∧ a.is_duplicate = false ∧ a.is_secondary = false
          ∧ a.is_supplementary = false := by
  intro records a
  simp [alignmentStream, keepAlignment, List.mem_filter, and_assoc]

/-- C8: in both tools a resolved feature is written exactly when its count
is positive or the zero-count flag is enabled; with the flag enabled a
feature with count 0 is still written. -/
theorem claim_C8_zero_output :
    (∀ (zeroes : Bool) (count : Nat),
      motif_output_check zeroes count = true ↔ (0 < count ∨ zeroes = true))
    ∧ (∀ (zeroes : Bool) (count : Int),
      region_output_check zeroes count = true ↔ (0 < count ∨ zeroes = true))
    ∧ (∀ (zeroes : Bool) (resolved : List (GenomeFeature × Nat))
        (p : GenomeFeature × Nat),
      p ∈ outputMotifs zeroes resolved ↔ p ∈ resolved ∧ (0 < p.2 ∨ zeroes = true))
    ∧ motif_output_check true 0 = true ∧ region_output_check true 0 = true := by
  refine ⟨?_, ?_, ?_, by decide, by decide⟩
  · intro zeroes count
    simp [motif_output_check, or_comm]
  · intro zeroes count
    simp [region_output_check, or_comm]
  · intro zeroes resolved p
    simp [outputMotifs, motif_output_check, List.mem_filter, or_comm]

/-- Counterexample to C3 as stated: with non-negative configured offsets
(same-strand 0, opposite-strand 0) and wobble 2, the motif
`(ref 0, 100, 101, +)` is declared passed at alignment cursor
`(ref 0, 102, 110, +)`, yet the later opposite-strand alignment
`(ref 0, 102, 103, -)` (same reference, left bound not before the
cursor's) still satisfies the match predicate: its offset 2 lies inside
the wobble window `[0, 2]` even though it is beyond
`max(same_strand_offset, opposite_strand_offset)`. -/
theorem claim_C3_counterexample :
    (0 : Int) ≤ (⟨0, 0, 2⟩ : DigestConfig).same_strand_offset
    ∧ (0 : Int) ≤ (⟨0, 0, 2⟩ : DigestConfig).opposite_strand_offset
    ∧ digest_a_is_passed ⟨0, 0, 2⟩ ⟨0, 100, 101, false⟩ ⟨0, 102, 110, false⟩ = true
    ∧ (⟨0, 102, 103, true⟩ : GenomeFeature).reference_id
        = (⟨0, 102, 110, false⟩ : GenomeFeature).reference_id
    ∧ (⟨0, 102, 110, false⟩ : GenomeFeature).left
        ≤ (⟨0, 102, 103, true⟩ : GenomeFeature).left
    ∧ digest_match ⟨0, 0, 2⟩ ⟨0, 100, 101, false⟩ ⟨0, 102, 103, true⟩ = true := by
  decide

/-- C3 (amended): the passed predicate for a motif holds exactly when the
alignment cursor's position exceeds `motif.right + max(same_strand_offset,
opposite_strand_offset)`, and symmetrically for an alignment against the
motif cursor; and no passed feature can match a later feature of the other
stream provided additionally that the features have nonempty intervals and
`opposite_strand_offset + wobble ≤ max(same_strand_offset,
opposite_strand_offset) + 1` (which the defaults 13/16/1 satisfy). -/
theorem claim_C3_passed_predicates :
    (∀ (cfg : DigestConfig) (motif alignment : GenomeFeature),
      digest_a_is_passed cfg motif alignment = true ↔
        motif.right + max cfg.same_strand_offset cfg.opposite_strand_offset
          < alignment.left)
    ∧ (∀ (cfg : DigestConfig) (motif alignment : GenomeFeature),
      digest_b_is_passed cfg motif alignment = true ↔
        alignment.right + max cfg.same_strand_offset cfg.opposite_strand_offset
          < motif.left)
    ∧ (∀ (cfg : DigestConfig) (motif cursor later : GenomeFeature),
      0 ≤ cfg.same_strand_offset →
      0 ≤ cfg.opposite_strand_offset →
      cfg.opposite_strand_offset + cfg.wobble
        ≤ max cfg.same_strand_offset cfg.opposite_strand_offset + 1 →
      motif.left < motif.right →
      later.left < later.right →
      digest_a_is_passed cfg motif cursor = true →
      cursor.left ≤ later.left →
      digest_match cfg motif later = false)
    ∧ (∀ (cfg : DigestConfig) (alignment cursor later : GenomeFeature),
      0 ≤ cfg.same_strand_offset →
      0 ≤ cfg.opposite_strand_offset →
      cfg.opposite_strand_offset + cfg.wobble
        ≤ max cfg.same_strand_offset cfg.opposite_strand_offset + 1 →
      alignment.left < alignment.right →
      later.left < later.right →
      digest_b_is_passed cfg cursor alignment = true →
      cursor.left ≤ later.left →
      digest_match cfg later alignment = false) := by
  have hmax1 : ∀ cfg : DigestConfig,
      cfg.same_strand_offset
        ≤ max cfg.same_strand_offset cfg.opposite_strand_offset :=
    fun cfg => le_max_left _ _
  have hmax2 : ∀ cfg : DigestConfig,
      cfg.opposite_strand_offset
        ≤ max cfg.same_strand_offset cfg.opposite_strand_offset :=
    fun cfg => le_max_right _ _
  refine ⟨fun cfg motif alignment => by simp [digest_a_is_passed],
    fun cfg motif alignment => by simp [digest_b_is_passed], ?_, ?_⟩
  · intro cfg motif cursor later h1 h2 h3 h4 h5 hpass hle
    have hm1 := hmax1 cfg
    have hm2 := hmax2 cfg
    simp only [digest_a_is_passed, decide_eq_true_eq] at hpass
    revert hm1 hm2 h3 hpass
    generalize max cfg.same_strand_offset cfg.opposite_strand_offset = M
    intro h3 hpass hm1 hm2
    cases hm : motif.is_reverse <;> cases hl : later.is_reverse <;>
      simp_all [digest_match, GenomeFeature.start_offset, GenomeFeature.start] <;>
      omega
  · intro cfg alignment cursor later h1 h2 h3 h4 h5 hpass hle
    have hm1 := hmax1 cfg
    have hm2 := hmax2 cfg
    simp only [digest_b_is_passed, decide_eq_true_eq] at hpass
    revert hm1 hm2 h3 hpass
    generalize max cfg.same_strand_offset cfg.opposite_strand_offset = M
    intro h3 hpass hm1 hm2
    cases hm : later.is_reverse <;> cases hl : alignment.is_reverse <;>
      simp_all [digest_match, GenomeFeature.start_offset, GenomeFeature.start] <;>
      omega

/-- Witness for the amended C3 at the default configuration: the motif
`(chr1, 100, 106, +)` is passed at alignment cursor position 123, and the
later opposite-strand alignment there indeed fails the match predicate. -/
theorem claim_C3_passed_predicates_witness :
    digest_match defaultDigestConfig ⟨0, 100, 106, false⟩ ⟨0, 123, 160, true⟩ = false :=
  claim_C3_passed_predicates.2.2.1 defaultDigestConfig ⟨0, 100, 106, false⟩
    ⟨0, 123, 170, false⟩ ⟨0, 123, 160, true⟩ (by decide) (by decide) (by decide)
    (by decide) (by decide) (by decide) (by decide)

/-- The region-count fold equals the initial value plus the total weight
of the matching hits. -/
lemma regionCount_foldl_eq (position : Int) (a : GenomeFeature)
    (hits : List BedHit) (init : Int) :
    hits.foldl
        (fun c b => if region_match position a b then increment_count c b else c)
        init
      = init + ((hits.filter (fun b => region_match position a b)).map hitWeight).sum := by
  induction hits generalizing init with
  | nil => simp
  | cons b rest ih =>
    simp only [List.foldl_cons, List.filter_cons]
    by_cases h : region_match position a b
    · rw [if_pos h, if_pos h, ih]
      simp only [increment_count, List.map_cons, List.sum_cons]
      omega
    · rw [if_neg h, if_neg h, ih]

/-- C4: in the region hit-counting policy a region/hit pair matches exactly
when the hit's start, shifted forward by the position offset in the hit's
own orientation, falls within the region's half-open interval, and the
region's count is the sum of the weights of its matching hits; for region
`chr1:1000-1010 (+)` with position offset 0, a hit at 1002 with score 5
contributes 5 and a further hit at 1015 contributes nothing. -/
theorem claim_C4_region_match_weight :
    (∀ (position : Int) (a : GenomeFeature) (b : BedHit),
      region_match position a b = true ↔
        (a.left ≤ shifted_forward b.feat.start b.feat.is_reverse position ∧
          shifted_forward b.feat.start b.feat.is_reverse position < a.right))
    ∧ (∀ (position : Int) (a : GenomeFeature) (hits : List BedHit),
      regionCount position a hits =
        ((hits.filter (fun b => region_match position a b)).map hitWeight).sum)
    ∧ regionCount 0 ⟨0, 1000, 1010, false⟩
        [⟨⟨0, 1002, 1003, false⟩, ["chr1", "1002", "1003", "5"]⟩] = 5
    ∧ regionCount 0 ⟨0, 1000, 1010, false⟩
        [⟨⟨0, 1002, 1003, false⟩, ["chr1", "1002", "1003", "5"]⟩,
          ⟨⟨0, 1015, 1016, false⟩, ["chr1", "1015", "1016", "7"]⟩] = 5 := by
  refine ⟨?_, ?_, by decide, by decide⟩
  · intro position a b
    simp [region_match]
  · intro position a hits
    simpa using regionCount_foldl_eq position a hits 0

/-- C5: a hit whose score field is missing or non-numeric gets weight 1
when added to a matching region's count — `increment_count` neither aborts
nor adds 0 there. -/
theorem claim_C5_default_weight :
    ∀ (b : BedHit),
      (b.data[3]? = none ∨ ∃ s, b.data[3]? = some s ∧ str_to_int s = none) →
      hitWeight b = 1 ∧ ∀ count : Int, increment_count count b = count + 1 := by
  intro b h
  have hw : hitWeight b = 1 := by
    rcases h with h | ⟨s, hs, hn⟩
    · simp [hitWeight, h]
    · simp [hitWeight, hs, hn]
  exact ⟨hw, fun count => by simp [increment_count, hw]⟩

/-- Witness for C5 on concrete hits: a record with no fourth field and a
record with a non-numeric fourth field both get weight 1, and incrementing
a count of 5 with the latter yields 6. -/
theorem claim_C5_default_weight_witness :
    hitWeight ⟨⟨0, 0, 1, false⟩, ["chr1", "0", "1"]⟩ = 1
    ∧ hitWeight ⟨⟨0, 0, 1, false⟩, ["chr1", "0", "1", "NAME"]⟩ = 1
    ∧ increment_count 5 ⟨⟨0, 0, 1, false⟩, ["chr1", "0", "1", "NAME"]⟩ = 6 := by
  have h1 := claim_C5_default_weight ⟨⟨0, 0, 1, false⟩, ["chr1", "0", "1"]⟩
    (Or.inl rfl)
  have h2 := claim_C5_default_weight ⟨⟨0, 0, 1, false⟩, ["chr1", "0", "1", "NAME"]⟩
    (Or.inr ⟨"NAME", rfl, by decide⟩)
  exact ⟨h1.1, h2.1, (h2.2 5).trans (by decide)⟩

/-- C6: the output loop of the digestion counter applies a 2-base
strand-aware adjustment to each emitted BED line: on the forward strand
field 2 (the end) is set to start + 2 and field 1 (the start) is
unchanged; on the reverse strand field 1 (the start) is increased by 2 and
field 2 (the end) is unchanged; every other field is unchanged either
way. -/
theorem claim_C6_bed_adjust :
    ∀ (fields : List String) (s : String) (v : Int),
      fields[1]? = some s → str_to_int s = some v → 2 < fields.length →
      (bedAdjust false fields = some (fields.set 2 (toString (v + 2)))
        ∧ (fields.set 2 (toString (v + 2)))[2]? = some (toString (v + 2))
        ∧ (fields.set 2 (toString (v + 2)))[1]? = some s
        ∧ ∀ i, i ≠ 2 → (fields.set 2 (toString (v + 2)))[i]? = fields[i]?)
      ∧ (bedAdjust true fields = some (fields.set 1 (toString (v + 2)))
        ∧ (fields.set 1 (toString (v + 2)))[1]? = some (toString (v + 2))
        ∧ (fields.set 1 (toString (v + 2)))[2]? = fields[2]?
        ∧ ∀ i, i ≠ 1 → (fields.set 1 (toString (v + 2)))[i]? = fields[i]?) := by
  intro fields s v hs hv hlen
  have hset2 : ∀ i, i ≠ 2 → (fields.set 2 (toString (v + 2)))[i]? = fields[i]? :=
    fun i hi => List.getElem?_set_ne (by omega)
  have hset1 : ∀ i, i ≠ 1 → (fields.set 1 (toString (v + 2)))[i]? = fields[i]? :=
    fun i hi => List.getElem?_set_ne (by omega)
  refine ⟨⟨?_, ?_, ?_, hset2⟩, ⟨?_, ?_, ?_, hset1⟩⟩
  · simp [bedAdjust, hs, hv]
  · rw [List.getElem?_set_self]
    · simp [hlen]
  · rw [hset2 1 (by omega), hs]
  · simp [bedAdjust, hs, hv]
  · rw [List.getElem?_set_self]
    · omega
  · exact hset1 2 (by omega)

/-- Witness for C6 on a concrete motif BED line with start 100: the
forward adjustment rewrites the end field to 102 and the reverse
adjustment rewrites the start field to 102, leaving everything else
untouched. -/
theorem claim_C6_bed_adjust_witness :
    bedAdjust false ["chr1", "100", "106", "7", "0", "+"]
      = some ["chr1", "100", "102", "7", "0", "+"]
    ∧ bedAdjust true ["chr1", "100", "106", "7", "0", "-"]
      = some ["chr1", "102", "106", "7", "0", "-"] := by
  have h1 := (claim_C6_bed_adjust ["chr1", "100", "106", "7", "0", "+"] "100" 100
    rfl (by decide) (by decide)).1.1
  have h2 := (claim_C6_bed_adjust ["chr1", "100", "106", "7", "0", "-"] "100" 100
    rfl (by decide) (by decide)).2.1
  exact ⟨h1.trans (by decide), h2.trans (by decide)⟩

/-- On a list of standard bases, `revcompAux` succeeds and computes the
per-base total complement. -/
lemma revcompAux_of_valid (l : List Char) (h : ∀ c ∈ l, isStdBase c) :
    revcompAux l = some (l.map compBase) := by
  induction l with
  | nil => rfl
  | cons c rest ih =>
    have hrest := ih (fun x hx => h x (List.mem_cons_of_mem c hx))
    rcases h c (List.mem_cons_self c rest) with rfl | rfl | rfl | rfl <;>
      simp [revcompAux, hrest, REVCOMP, compBase]

/-- The total complement maps standard bases to standard bases. -/
lemma compBase_mem (c : Char) (h : isStdBase c) : isStdBase (compBase c) := by
  rcases h with rfl | rfl | rfl | rfl <;> simp [compBase, REVCOMP, isStdBase]

/-- The total complement is an involution on standard bases. -/
lemma compBase_compBase (c : Char) (h : isStdBase c) : compBase (compBase c) = c := by
  rcases h with rfl | rfl | rfl | rfl <;> rfl

/-- C9: the reverse-complement function of the motif-search tool is a
length-preserving involution on sequences over the four standard bases:
it succeeds, preserves the length, and applying it twice returns the
original sequence. -/
theorem claim_C9_revcomp_involution :
    ∀ s : List Char, (∀ c ∈ s, isStdBase c) →
      ∃ t, revcomp s = some t ∧ t.length = s.length ∧ revcomp t = some s := by
  intro s h
  have hrev : ∀ c ∈ s.reverse, isStdBase c := fun c hc => h c (List.mem_reverse.mp hc)
  refine ⟨s.reverse.map compBase, ?_, by simp, ?_⟩
  · exact revcompAux_of_valid s.reverse hrev
  · have hvalid2 : ∀ c ∈ (s.reverse.map compBase).reverse, isStdBase c := by
      intro c hc
      rcases List.mem_map.mp (List.mem_reverse.mp hc) with ⟨d, hd, rfl⟩
      exact compBase_mem d (hrev d hd)
    unfold revcomp
    rw [revcompAux_of_valid _ hvalid2]
    congr 1
    rw [← List.map_reverse, List.reverse_reverse, List.map_map]
    calc s.map (compBase ∘ compBase) = s.map id := by
          apply List.map_congr_left
          intro c hc
          exact compBase_compBase c (h c hc)
      _ = s := List.map_id s

/-- Witness for C9 on the concrete sequence ACGT: its reverse complement
exists, has length 4 and reverse-complements back to ACGT. -/
theorem claim_C9_revcomp_involution_witness :
    ∃ t, revcomp ['A', 'C', 'G', 'T'] = some t
      ∧ t.length = (['A', 'C', 'G', 'T'] : List Char).length
      ∧ revcomp t = some ['A', 'C', 'G', 'T'] :=
  claim_C9_revcomp_involution ['A', 'C', 'G', 'T'] (by decide)

/-- C10: a region output with no name field in its payload gets a
synthesized name `chromosome:left-rightSTRAND` rather than aborting, and
the output line still has exactly the two tab-separated columns; on the
concrete nameless region `chr1:1000-1010 (+)` with count 5 the line is
`chr1:1000-1010+`, a tab, `5` and a newline. -/
theorem claim_C10_synth_name :
    (∀ (reference_names : List String) (r : Region) (count : Int),
      r.name = none →
      outputColumns reference_names r count =
        [(reference_names.getD r.feat.reference_id "") ++ ":"
          ++ toString r.feat.left ++ "-" ++ toString r.feat.right
          ++ (if r.feat.is_reverse then "-" else "+"), toString count]
      ∧ (outputColumns reference_names r count).length = 2
      ∧ outputLine reference_names r count =
          ((reference_names.getD r.feat.reference_id "") ++ ":"
            ++ toString r.feat.left ++ "-" ++ toString r.feat.right
            ++ (if r.feat.is_reverse then "-" else "+"))
            ++ "\t" ++ toString count ++ "\n")
    ∧ outputLine ["chr1"] ⟨⟨0, 1000, 1010, false⟩, none⟩ 5 = "chr1:1000-1010+\t5\n" := by
  refine ⟨?_, by decide⟩
  intro reference_names r count h
  refine ⟨?_, rfl, ?_⟩
  · simp [outputColumns, regionName, h]
  · simp [outputLine, regionName, h]

/-- Witness for C10 at the concrete nameless region: applying the general
statement to `chr1:1000-1010 (+)` with count 5 yields the two synthesized
columns. -/
theorem claim_C10_synth_name_witness :
    outputColumns ["chr1"] ⟨⟨0, 1000, 1010, false⟩, none⟩ 5 = ["chr1:1000-1010+", "5"] :=
  ((claim_C10_synth_name.1 ["chr1"] ⟨⟨0, 1000, 1010, false⟩, none⟩ 5 rfl).1).trans
    (by decide)

end FMLtools
